import Mathlib

/-!
A shallow embedding of the dataset-construction script `main.py` of the
`autodistill_xyz` repository.

The script is straight-line orchestration code.  We model it as pure
state-passing functions over an explicit filesystem (`FS`) together with an
event trace (`St`), so that error propagation (Python exceptions become the
`Outcome.err` result), filesystem mutation, and the temporal order of the
calls made to the external collaborators are all visible in the result.

External collaborators (the HTTP client, the zip extractor, the video frame
decoder, and the YAML parser) are opaque per the design: they are supplied as
pure oracles in a `World` record.  The labeling oracle (`CaptionOntology`,
`GroundedSAM`, `base_model.label`) performs no observable work in this model
beyond the arguments it receives, which are recorded as trace events.
-/

namespace AutoDistill

/-- Python exception classes raised by the script: `ValueError` (invalid
`input_type`), `FileNotFoundError` (missing image directory) and `KeyError`
(missing configuration key, raised by `dict[key]` access). -/
inductive Err where
  | valueError (msg : String)
  | fileNotFound (msg : String)
  | keyError (key : String)
deriving DecidableEq

/-- Observable events of one run.  `routeDataset` marks the entry into
`process_dataset`, `captionOntology` / `groundedSAM` / `labelCall` record the
arguments handed to the labeling oracle; the remaining constructors record
console output, directory creation, the HTTP request, file writes, archive
extraction and the per-frame image saves of `sv.ImageSink.save_image`. -/
inductive Event where
  | loadConfig (path : String)
  | printMsg (msg : String)
  | makedirs (dir : String)
  | routeDataset (input_type : String)
  | httpGet (url : String)
  | writeFile (path : String)
  | extractArchive (zipPath dir : String)
  | saveImage (path : String)
  | captionOntology (mapping : List (String × String))
  | groundedSAM (mapping : List (String × String))
  | labelCall (input_folder output_folder : String)
deriving DecidableEq

/-- The filesystem: the set of existing directories and the set of existing
files, as lists of paths (paths are treated as atoms; `os.makedirs` and the
file-writing primitives insert, nothing in the script ever deletes). -/
structure FS where
  dirs : List String
  files : List String
deriving DecidableEq

/-- The running state of the script: the filesystem plus the trace of events
emitted so far. -/
structure St where
  fs : FS
  trace : List Event
deriving DecidableEq

/-- Result of a fragment of the script: normal return or a propagating
Python exception. -/
inductive Outcome where
  | ok
  | err (e : Err)
deriving DecidableEq

/-- The state at process start: some pre-existing filesystem, empty trace. -/
def initSt (fs : FS) : St := ⟨fs, []⟩

/-- Append an event to the trace. -/
def St.emit (s : St) (e : Event) : St := { s with trace := s.trace ++ [e] }

/-- Model of `print(msg)`. -/
def St.print (s : St) (msg : String) : St := s.emit (.printMsg msg)

/-- Model of `os.path.exists`. -/
def FS.pathExists (fs : FS) (p : String) : Bool :=
  fs.dirs.contains p || fs.files.contains p

/-- Model of `os.makedirs(d, exist_ok=True)`: record the directory as
existing (never failing when it already does) and emit the corresponding
event.  `FS.dirs` is a set of paths represented as a list, so recording an
already-present directory again changes nothing observable. -/
def St.makedirs (s : St) (d : String) : St :=
  { fs := { s.fs with dirs := s.fs.dirs ++ [d] },
    trace := s.trace ++ [.makedirs d] }

/-- Writing a file with `open(p, 'wb')` / `f.write`: record the file as
existing and emit a `writeFile` event. -/
def St.writeFile (s : St) (p : String) : St :=
  { fs := { s.fs with files := s.fs.files ++ [p] },
    trace := s.trace ++ [.writeFile p] }

/-- `sv.ImageSink.save_image`: writes the image file and emits a `saveImage`
event (distinguished from `writeFile` so that acquisition writes and
extraction writes can be told apart in the trace). -/
def St.saveImage (s : St) (p : String) : St :=
  { fs := { s.fs with files := s.fs.files ++ [p] },
    trace := s.trace ++ [.saveImage p] }

/-- The `data.video` section of the configuration; every key optional, since
Python only discovers a missing key at the point of access. -/
structure VideoSection where
  video_url : Option String
  video_dir : Option String
  frame_stride : Option Nat
deriving DecidableEq

/-- The `data.image` section of the configuration. -/
structure ImageSection where
  image_dir : Option String
deriving DecidableEq

/-- The `data` section of the configuration. -/
structure DataSection where
  input_type : Option String
  dataset_dir : Option String
  video : Option VideoSection
  image : Option ImageSection
deriving DecidableEq

/-- A parsed configuration file: the nested mapping produced by
`yaml.safe_load`, restricted to the keys the script reads.  A `none` field
models an absent key; accessing it raises `KeyError`. -/
structure Config where
  data : Option DataSection
  ontology : Option (List (String × String))
deriving DecidableEq

/-- The opaque external collaborators, as pure oracles:
`archiveEntries url` is the list of member names of the zip archive served at
`url` (the HTTP body and the zip format themselves are opaque);
`frameCount path` is the number of decodable frames of the video at `path`;
`config path` is the result of `yaml.safe_load` on the file at `path`. -/
structure World where
  archiveEntries : String → List String
  frameCount : String → Nat
  config : String → Config

/-- Model of `os.path.basename`: the component after the last slash,
computed character by character (structurally, so that it evaluates inside
the kernel). -/
def basename (p : String) : String :=
  String.mk (p.toList.foldl (fun acc c => if c = '/' then [] else acc ++ [c]) [])

/-- Does `s` start with `pre`?  (Structural replacement for the string
primitive, used by the directory-listing model.) -/
def strStartsWith (s pre : String) : Bool := pre.toList.isPrefixOf s.toList

/-- Does `s` end with `suf`? -/
def strEndsWith (s suf : String) : Bool := suf.toList.isSuffixOf s.toList

/-- Model of `os.path.splitext(b)[0]`: drop the last dot-suffix, unless every
character before the final dot is itself a dot (so ".mp4" keeps its name, as
in Python). -/
def splitextBase (b : String) : String :=
  let cs := b.toList
  let lastDot := (List.range cs.length).foldl
    (fun acc i => if cs.getD i ' ' = '.' then some i else acc) none
  match lastDot with
  | none => b
  | some i => if (cs.take i).all (fun c => c = '.') then b else String.mk (cs.take i)

/-- Python `"{:05d}".format n`: the decimal digits of `n`, zero-padded on the
left to a minimum width of 5. -/
def format05 (n : Nat) : String :=
  let s := toString n
  if s.length < 5 then String.mk (List.replicate (5 - s.length) '0') ++ s else s

/-- The file name produced for the `i`-th saved frame of a video whose base
name is `video_name`: the pattern `video_name + "-{:05d}.png"` instantiated
at `i`. -/
def frameImageName (video_name : String) (i : Nat) : String :=
  video_name ++ "-" ++ format05 i ++ ".png"

/-- Model of `sv.list_files_with_extensions(directory, ["mov", "mp4"])`:
the files of the filesystem under `directory` with one of those extensions. -/
def list_files_with_extensions (fs : FS) (directory : String) : List String :=
  fs.files.filter (fun p =>
    strStartsWith p (directory ++ "/") && (strEndsWith p ".mov" || strEndsWith p ".mp4"))

/-- Modelled from the spec: the frame indices yielded by the external
`sv.get_video_frames_generator(source_path, stride)` on a video of `n`
decodable frames — "a lazy, finite ... sequence of decoded frames sampled
every `stride` frames from the source video", i.e. frames `0, stride,
2·stride, …` below `n`.  The library itself is an external collaborator, not
part of this repository. -/
def videoFrameIndices (n stride : Nat) : List Nat :=
  (List.range n).filter (fun i => i % stride == 0)

/-- Step 2 of the script, `download_and_extract_videos(video_url, video_dir)`:
HTTP GET, write the body to `videos.zip` inside `video_dir`, extract every
archive entry into `video_dir`, with the three progress prints. -/
def download_and_extract_videos (w : World) (video_url video_dir : String) (s : St) : St :=
  let video_zip_path := video_dir ++ "/videos.zip"
  let s := s.print ("Downloading videos from " ++ video_url ++ "...")
  let s := s.emit (.httpGet video_url)
  let s := s.writeFile video_zip_path
  let s := s.print ("Extracting videos to " ++ video_dir ++ "...")
  let s := s.emit (.extractArchive video_zip_path video_dir)
  let s := (w.archiveEntries video_url).foldl
    (fun acc e => acc.writeFile (video_dir ++ "/" ++ e)) s
  s.print "Video download and extraction complete."

/-- Step 3 of the script, `extract_frames_from_videos(video_dir, image_dir,
frame_stride)`: for each `mov`/`mp4` file in `video_dir`, open an
`sv.ImageSink` with pattern `video_name + "-{:05d}.png"` and save one image
per frame yielded by the stride-sampling generator, the sink's counter
starting at 0 for each video. -/
def extract_frames_from_videos (w : World) (video_dir image_dir : String)
    (frame_stride : Nat) (s : St) : St :=
  let video_paths := list_files_with_extensions s.fs video_dir
  video_paths.foldl (fun acc video_path =>
    let video_name := splitextBase (basename video_path)
    let count := (videoFrameIndices (w.frameCount video_path) frame_stride).length
    (List.range count).foldl
      (fun acc2 i => acc2.saveImage (image_dir ++ "/" ++ frameImageName video_name i)) acc) s

/-- Step 4 of the script, `auto_label_images(image_dir, dataset_dir,
ontology_mapping)`: construct `CaptionOntology(ontology_mapping)`, then
`GroundedSAM(ontology=ontology)`, print, and call
`base_model.label(input_folder=image_dir, output_folder=dataset_dir)`. -/
def auto_label_images (image_dir dataset_dir : String)
    (ontology_mapping : List (String × String)) (s : St) : St :=
  let s := s.emit (.captionOntology ontology_mapping)
  let s := s.emit (.groundedSAM ontology_mapping)
  let s := s.print "Starting auto-labeling of images..."
  s.emit (.labelCall image_dir dataset_dir)

/-- Step 5 of the script, `process_dataset(input_type, config)`.  The
`routeDataset` event marks the call itself.  Key accesses mirror the source
order: `config['data']['dataset_dir']` first, then the branch on
`input_type`. -/
def process_dataset (w : World) (input_type : String) (config : Config) (s : St) :
    St × Outcome :=
  let s := s.emit (.routeDataset input_type)
  match config.data with
  | none => (s, .err (.keyError "data"))
  | some data =>
    match data.dataset_dir with
    | none => (s, .err (.keyError "dataset_dir"))
    | some dataset_dir =>
      if input_type = "video" then
        let s := s.print "Dataset type is 'video'. Processing video dataset..."
        match data.video with
        | none => (s, .err (.keyError "video"))
        | some video_config =>
          match video_config.video_url with
          | none => (s, .err (.keyError "video_url"))
          | some video_url =>
            match video_config.video_dir with
            | none => (s, .err (.keyError "video_dir"))
            | some video_dir =>
              match video_config.frame_stride with
              | none => (s, .err (.keyError "frame_stride"))
              | some frame_stride =>
                let s := s.makedirs video_dir
                let s := s.makedirs dataset_dir
                let s := download_and_extract_videos w video_url video_dir s
                let s := extract_frames_from_videos w video_dir dataset_dir frame_stride s
                (s, .ok)
      else if input_type = "image" then
        let s := s.print "Dataset type is 'image'. Processing existing image dataset..."
        match data.image with
        | none => (s, .err (.keyError "image"))
        | some image_section =>
          match image_section.image_dir with
          | none => (s, .err (.keyError "image_dir"))
          | some image_dir =>
            if s.fs.pathExists image_dir then
              (s.makedirs dataset_dir, .ok)
            else
              (s, .err (.fileNotFound ("Image directory " ++ image_dir ++ " does not exist.")))
      else
        (s, .err (.valueError "Invalid input type. Must be 'video' or 'image'."))

/-- Step 6 of the script, `main(config_path)`: load the configuration, read
`config['data']['input_type']`, route the dataset, then read
`config['ontology']`, `config['data']['image']['image_dir']` and
`config['data']['dataset_dir']` (in that source order), label, and print the
completion message. -/
def main (w : World) (config_path : String) (s : St) : St × Outcome :=
  let s := s.emit (.loadConfig config_path)
  let config := w.config config_path
  match config.data with
  | none => (s, .err (.keyError "data"))
  | some data =>
    match data.input_type with
    | none => (s, .err (.keyError "input_type"))
    | some input_type =>
      match process_dataset w input_type config s with
      | (s1, .err e) => (s1, .err e)
      | (s1, .ok) =>
        match config.ontology with
        | none => (s1, .err (.keyError "ontology"))
        | some ontology_mapping =>
          match data.image with
          | none => (s1, .err (.keyError "image"))
          | some image_section =>
            match image_section.image_dir with
            | none => (s1, .err (.keyError "image_dir"))
            | some image_dir =>
              match data.dataset_dir with
              | none => (s1, .err (.keyError "dataset_dir"))
              | some dataset_dir =>
                let s2 := auto_label_images image_dir dataset_dir ontology_mapping s1
                (s2.print "Dataset construction complete.", .ok)

/-- The `argparse` step of the `__main__` block: `--config <path>` with
default `"config.yaml"`. -/
def parseConfigArg : List String → String
  | [] => "config.yaml"
  | "--config" :: v :: _ => v
  | _ :: rest => parseConfigArg rest

/-- The `__main__` block: parse the arguments and run `main`. -/
def runScript (w : World) (args : List String) (s : St) : St × Outcome :=
  main w (parseConfigArg args) s

/-- Process exit status: zero on normal completion, non-zero when a Python
exception propagates out of `main`. -/
def exitCode : Outcome → Nat
  | .ok => 0
  | .err _ => 1

/-! Basic lemmas about the state primitives. -/

theorem emit_fs (s : St) (e : Event) : (s.emit e).fs = s.fs := rfl

theorem print_fs (s : St) (m : String) : (s.print m).fs = s.fs := rfl

theorem makedirs_files (s : St) (d : String) : (s.makedirs d).fs.files = s.fs.files := rfl

theorem mem_makedirs_self (s : St) (d : String) : d ∈ (s.makedirs d).fs.dirs := by
  simp [St.makedirs]

theorem mem_makedirs_mono (s : St) (d p : String) (h : p ∈ s.fs.dirs) :
    p ∈ (s.makedirs d).fs.dirs := by
  simp [St.makedirs, h]

theorem writeFile_dirs (s : St) (p : String) : (s.writeFile p).fs.dirs = s.fs.dirs := rfl

theorem mem_writeFile_self (s : St) (p : String) : p ∈ (s.writeFile p).fs.files := by
  simp [St.writeFile]

theorem mem_writeFile_mono (s : St) (p q : String) (h : q ∈ s.fs.files) :
    q ∈ (s.writeFile p).fs.files := by
  simp [St.writeFile, h]

theorem saveImage_dirs (s : St) (p : String) : (s.saveImage p).fs.dirs = s.fs.dirs := rfl

theorem mem_saveImage_mono (s : St) (p q : String) (h : q ∈ s.fs.files) :
    q ∈ (s.saveImage p).fs.files := by
  simp [St.saveImage, h]

/-! Lemmas about the file-writing folds of the acquisition and extraction
steps. -/

theorem foldl_writeFile_trace {α : Type} (f : α → String) :
    ∀ (l : List α) (s : St),
      (l.foldl (fun a x => a.writeFile (f x)) s).trace
        = s.trace ++ l.map (fun x => Event.writeFile (f x))
  | [], s => by simp
  | x :: l, s => by
    rw [List.foldl_cons, foldl_writeFile_trace f l]
    simp [St.writeFile]

theorem foldl_writeFile_dirs {α : Type} (f : α → String) :
    ∀ (l : List α) (s : St),
      (l.foldl (fun a x => a.writeFile (f x)) s).fs.dirs = s.fs.dirs
  | [], _ => rfl
  | x :: l, s => by
    rw [List.foldl_cons, foldl_writeFile_dirs f l, writeFile_dirs]

theorem foldl_writeFile_files_mono {α : Type} (f : α → String) :
    ∀ (l : List α) (s : St) (q : String), q ∈ s.fs.files →
      q ∈ (l.foldl (fun a x => a.writeFile (f x)) s).fs.files
  | [], _, _, h => h
  | x :: l, s, q, h => by
    rw [List.foldl_cons]
    exact foldl_writeFile_files_mono f l _ q (mem_writeFile_mono s (f x) q h)

theorem foldl_writeFile_files_mem {α : Type} (f : α → String) :
    ∀ (l : List α) (s : St) (x : α), x ∈ l →
      f x ∈ (l.foldl (fun a x => a.writeFile (f x)) s).fs.files
  | [], _, _, h => absurd h (List.not_mem_nil _)
  | y :: l, s, x, h => by
    rw [List.foldl_cons]
    rcases List.mem_cons.1 h with h | h
    · subst h
      exact foldl_writeFile_files_mono f l _ (f x) (mem_writeFile_self s (f x))
    · exact foldl_writeFile_files_mem f l _ x h

theorem foldl_saveImage_trace {α : Type} (f : α → String) :
    ∀ (l : List α) (s : St),
      (l.foldl (fun a x => a.saveImage (f x)) s).trace
        = s.trace ++ l.map (fun x => Event.saveImage (f x))
  | [], s => by simp
  | x :: l, s => by
    rw [List.foldl_cons, foldl_saveImage_trace f l]
    simp [St.saveImage]

theorem foldl_saveImage_dirs {α : Type} (f : α → String) :
    ∀ (l : List α) (s : St),
      (l.foldl (fun a x => a.saveImage (f x)) s).fs.dirs = s.fs.dirs
  | [], _ => rfl
  | x :: l, s => by
    rw [List.foldl_cons, foldl_saveImage_dirs f l, saveImage_dirs]

theorem foldl_saveImage_files_mono {α : Type} (f : α → String) :
    ∀ (l : List α) (s : St) (q : String), q ∈ s.fs.files →
      q ∈ (l.foldl (fun a x => a.saveImage (f x)) s).fs.files
  | [], _, _, h => h
  | x :: l, s, q, h => by
    rw [List.foldl_cons]
    exact foldl_saveImage_files_mono f l _ q (mem_saveImage_mono s (f x) q h)

/-! The trace and filesystem effect of the acquisition step. -/

/-- The exact event sequence emitted by one call of
`download_and_extract_videos`. -/
def acquisitionTrace (w : World) (video_url video_dir : String) : List Event :=
  [.printMsg ("Downloading videos from " ++ video_url ++ "..."),
   .httpGet video_url,
   .writeFile (video_dir ++ "/videos.zip"),
   .printMsg ("Extracting videos to " ++ video_dir ++ "..."),
   .extractArchive (video_dir ++ "/videos.zip") video_dir]
  ++ (w.archiveEntries video_url).map (fun e => .writeFile (video_dir ++ "/" ++ e))
  ++ [.printMsg "Video download and extraction complete."]

theorem print_trace (s : St) (m : String) :
    (s.print m).trace = s.trace ++ [Event.printMsg m] := rfl

theorem download_trace (w : World) (u d : String) (s : St) :
    (download_and_extract_videos w u d s).trace = s.trace ++ acquisitionTrace w u d := by
  unfold download_and_extract_videos
  rw [print_trace, foldl_writeFile_trace (fun e => d ++ "/" ++ e)]
  simp [acquisitionTrace, St.print, St.emit, St.writeFile]

theorem download_dirs (w : World) (u d : String) (s : St) :
    (download_and_extract_videos w u d s).fs.dirs = s.fs.dirs := by
  simp only [download_and_extract_videos, St.print]
  rw [emit_fs]
  rw [foldl_writeFile_dirs (fun e => d ++ "/" ++ e) (w.archiveEntries u)]
  rfl

theorem download_files_mono (w : World) (u d : String) (s : St) (q : String)
    (h : q ∈ s.fs.files) : q ∈ (download_and_extract_videos w u d s).fs.files := by
  simp only [download_and_extract_videos, St.print]
  exact foldl_writeFile_files_mono _ _ _ q (mem_writeFile_mono _ _ q h)

theorem download_zip_mem (w : World) (u d : String) (s : St) :
    (d ++ "/videos.zip") ∈ (download_and_extract_videos w u d s).fs.files := by
  simp only [download_and_extract_videos, St.print]
  exact foldl_writeFile_files_mono _ _ _ _ (mem_writeFile_self _ _)

theorem download_entry_mem (w : World) (u d : String) (s : St) (e : String)
    (h : e ∈ w.archiveEntries u) :
    (d ++ "/" ++ e) ∈ (download_and_extract_videos w u d s).fs.files := by
  simp only [download_and_extract_videos, St.print]
  exact foldl_writeFile_files_mem _ _ _ e h

/-! The trace and filesystem effect of the extraction step. -/

/-- The exact event sequence emitted by one call of
`extract_frames_from_videos` started on filesystem `fs`: for each listed
video, one `saveImage` event per sampled frame, in index order `0, 1, …`. -/
def extractedSaveEvents (w : World) (fs : FS) (video_dir image_dir : String)
    (stride : Nat) : List Event :=
  (list_files_with_extensions fs video_dir).flatMap (fun vp =>
    (List.range (videoFrameIndices (w.frameCount vp) stride).length).map (fun i =>
      Event.saveImage (image_dir ++ "/" ++ frameImageName (splitextBase (basename vp)) i)))

theorem foldl_video_trace (w : World) (image_dir : String) (stride : Nat) :
    ∀ (videos : List String) (s : St),
      (videos.foldl (fun acc video_path =>
        (List.range (videoFrameIndices (w.frameCount video_path) stride).length).foldl
          (fun acc2 i =>
            acc2.saveImage (image_dir ++ "/" ++ frameImageName (splitextBase (basename video_path)) i))
          acc) s).trace
      = s.trace ++ videos.flatMap (fun vp =>
          (List.range (videoFrameIndices (w.frameCount vp) stride).length).map (fun i =>
            Event.saveImage (image_dir ++ "/" ++ frameImageName (splitextBase (basename vp)) i)))
  | [], s => by simp
  | v :: videos, s => by
    rw [List.foldl_cons, foldl_video_trace w image_dir stride videos]
    rw [foldl_saveImage_trace (fun i => image_dir ++ "/" ++ frameImageName (splitextBase (basename v)) i)]
    simp [List.append_assoc]

theorem extract_trace (w : World) (video_dir image_dir : String) (stride : Nat) (s : St) :
    (extract_frames_from_videos w video_dir image_dir stride s).trace
      = s.trace ++ extractedSaveEvents w s.fs video_dir image_dir stride := by
  simp only [extract_frames_from_videos, extractedSaveEvents]
  exact foldl_video_trace w image_dir stride (list_files_with_extensions s.fs video_dir) s

theorem foldl_video_dirs (w : World) (image_dir : String) (stride : Nat) :
    ∀ (videos : List String) (s : St),
      (videos.foldl (fun acc video_path =>
        (List.range (videoFrameIndices (w.frameCount video_path) stride).length).foldl
          (fun acc2 i =>
            acc2.saveImage (image_dir ++ "/" ++ frameImageName (splitextBase (basename video_path)) i))
          acc) s).fs.dirs = s.fs.dirs
  | [], _ => rfl
  | v :: videos, s => by
    rw [List.foldl_cons, foldl_video_dirs w image_dir stride videos]
    exact foldl_saveImage_dirs _ _ _

theorem extract_dirs (w : World) (video_dir image_dir : String) (stride : Nat) (s : St) :
    (extract_frames_from_videos w video_dir image_dir stride s).fs.dirs = s.fs.dirs := by
  simp only [extract_frames_from_videos]
  exact foldl_video_dirs w image_dir stride _ s

theorem foldl_video_files_mono (w : World) (image_dir : String) (stride : Nat) :
    ∀ (videos : List String) (s : St) (q : String), q ∈ s.fs.files →
      q ∈ (videos.foldl (fun acc video_path =>
        (List.range (videoFrameIndices (w.frameCount video_path) stride).length).foldl
          (fun acc2 i =>
            acc2.saveImage (image_dir ++ "/" ++ frameImageName (splitextBase (basename video_path)) i))
          acc) s).fs.files
  | [], _, _, h => h
  | v :: videos, s, q, h => by
    rw [List.foldl_cons]
    exact foldl_video_files_mono w image_dir stride videos _ q
      (foldl_saveImage_files_mono _ _ _ q h)

theorem extract_files_mono (w : World) (video_dir image_dir : String) (stride : Nat)
    (s : St) (q : String) (h : q ∈ s.fs.files) :
    q ∈ (extract_frames_from_videos w video_dir image_dir stride s).fs.files := by
  simp only [extract_frames_from_videos]
  exact foldl_video_files_mono w image_dir stride _ s q h

/-! Run lemmas for `process_dataset` on each branch. -/

theorem process_video_eq (w : World) (it : Option String) (ds u vd : String) (n : Nat)
    (img : Option ImageSection) (ont : Option (List (String × String))) (s : St) :
    process_dataset w "video" ⟨some ⟨it, some ds, some ⟨some u, some vd, some n⟩, img⟩, ont⟩ s
      = (extract_frames_from_videos w vd ds n
          (download_and_extract_videos w u vd
            ((((s.emit (.routeDataset "video")).print
              "Dataset type is 'video'. Processing video dataset...").makedirs vd).makedirs ds)),
        .ok) := rfl

theorem process_invalid_eq (w : World) (t : String) (h1 : t ≠ "video") (h2 : t ≠ "image")
    (it : Option String) (ds : String) (vidsec : Option VideoSection)
    (imgsec : Option ImageSection) (ont : Option (List (String × String))) (s : St) :
    process_dataset w t ⟨some ⟨it, some ds, vidsec, imgsec⟩, ont⟩ s
      = (s.emit (.routeDataset t),
        .err (.valueError "Invalid input type. Must be 'video' or 'image'.")) := by
  simp [process_dataset, h1, h2]

theorem process_image_found_eq (w : World) (it : Option String) (ds imgd : String)
    (vidsec : Option VideoSection) (ont : Option (List (String × String))) (s : St)
    (h : s.fs.pathExists imgd = true) :
    process_dataset w "image" ⟨some ⟨it, some ds, vidsec, some ⟨some imgd⟩⟩, ont⟩ s
      = (((s.emit (.routeDataset "image")).print
          "Dataset type is 'image'. Processing existing image dataset...").makedirs ds,
        .ok) := by
  simp [process_dataset, St.emit, St.print, St.makedirs, h]

theorem process_image_notfound_eq (w : World) (it : Option String) (ds imgd : String)
    (vidsec : Option VideoSection) (ont : Option (List (String × String))) (s : St)
    (h : s.fs.pathExists imgd = false) :
    process_dataset w "image" ⟨some ⟨it, some ds, vidsec, some ⟨some imgd⟩⟩, ont⟩ s
      = ((s.emit (.routeDataset "image")).print
          "Dataset type is 'image'. Processing existing image dataset...",
        .err (.fileNotFound ("Image directory " ++ imgd ++ " does not exist."))) := by
  simp [process_dataset, St.emit, St.print, h]

/-! Claim theorems. -/

/-- C1: for every configuration (with the required `data.dataset_dir` key
present) and every `input_type` other than `"video"` and `"image"`,
`process_dataset` fails with the `ValueError` of line 87 and performs no
filesystem mutation: the resulting filesystem equals the initial one, so no
directory is created and no file is written. -/
theorem router_invalid_input_type (w : World) (t : String) (h1 : t ≠ "video")
    (h2 : t ≠ "image") (it : Option String) (ds : String) (vidsec : Option VideoSection)
    (imgsec : Option ImageSection) (ont : Option (List (String × String))) (s : St) :
    (process_dataset w t ⟨some ⟨it, some ds, vidsec, imgsec⟩, ont⟩ s).1.fs = s.fs
    ∧ (process_dataset w t ⟨some ⟨it, some ds, vidsec, imgsec⟩, ont⟩ s).2
        = Outcome.err (Err.valueError "Invalid input type. Must be 'video' or 'image'.") := by
  rw [process_invalid_eq w t h1 h2]
  exact ⟨rfl, rfl⟩

/-- Witness for C1 at `input_type = "audio"` on an empty filesystem. -/
theorem router_invalid_input_type_witness :
    (process_dataset ⟨fun _ => [], fun _ => 0, fun _ => ⟨none, none⟩⟩ "audio"
        ⟨some ⟨some "audio", some "out", none, none⟩, none⟩ (initSt ⟨[], []⟩)).1.fs
      = (initSt ⟨[], []⟩).fs
    ∧ (process_dataset ⟨fun _ => [], fun _ => 0, fun _ => ⟨none, none⟩⟩ "audio"
        ⟨some ⟨some "audio", some "out", none, none⟩, none⟩ (initSt ⟨[], []⟩)).2
      = Outcome.err (Err.valueError "Invalid input type. Must be 'video' or 'image'.") :=
  router_invalid_input_type ⟨fun _ => [], fun _ => 0, fun _ => ⟨none, none⟩⟩ "audio"
    (by decide) (by decide) (some "audio") "out" none none none (initSt ⟨[], []⟩)

/-- C2: for every configuration with `input_type = "image"` whose configured
image directory does not exist, `process_dataset` fails with the
`FileNotFoundError` of line 82 and leaves the filesystem untouched — in
particular the dataset directory is not created, since its creation (line 84)
comes only after the existence check passes. -/
theorem router_image_missing_dir (w : World) (it : Option String) (ds imgd : String)
    (vidsec : Option VideoSection) (ont : Option (List (String × String))) (s : St)
    (h : s.fs.pathExists imgd = false) :
    (process_dataset w "image" ⟨some ⟨it, some ds, vidsec, some ⟨some imgd⟩⟩, ont⟩ s).1.fs
      = s.fs
    ∧ (process_dataset w "image" ⟨some ⟨it, some ds, vidsec, some ⟨some imgd⟩⟩, ont⟩ s).2
      = Outcome.err (Err.fileNotFound ("Image directory " ++ imgd ++ " does not exist.")) := by
  rw [process_image_notfound_eq w it ds imgd vidsec ont s h]
  exact ⟨rfl, rfl⟩

/-- Witness for C2: image mode with `image_dir = "imgs"` on an empty
filesystem. -/
theorem router_image_missing_dir_witness :
    (process_dataset ⟨fun _ => [], fun _ => 0, fun _ => ⟨none, none⟩⟩ "image"
        ⟨some ⟨some "image", some "out", none, some ⟨some "imgs"⟩⟩, none⟩ (initSt ⟨[], []⟩)).1.fs
      = (initSt ⟨[], []⟩).fs
    ∧ (process_dataset ⟨fun _ => [], fun _ => 0, fun _ => ⟨none, none⟩⟩ "image"
        ⟨some ⟨some "image", some "out", none, some ⟨some "imgs"⟩⟩, none⟩ (initSt ⟨[], []⟩)).2
      = Outcome.err (Err.fileNotFound "Image directory imgs does not exist.") :=
  router_image_missing_dir ⟨fun _ => [], fun _ => 0, fun _ => ⟨none, none⟩⟩ (some "image")
    "out" "imgs" none none (initSt ⟨[], []⟩) (by decide)

/-- C3: for every configuration with `input_type = "video"`, after
`process_dataset` returns, both the configured video directory and the
dataset directory exist, for every initial filesystem — whether or not either
existed beforehand (`os.makedirs(…, exist_ok=True)` is idempotent). -/
theorem router_video_creates_dirs (w : World) (it : Option String) (ds u vd : String)
    (n : Nat) (img : Option ImageSection) (ont : Option (List (String × String))) (s : St) :
    vd ∈ (process_dataset w "video"
            ⟨some ⟨it, some ds, some ⟨some u, some vd, some n⟩, img⟩, ont⟩ s).1.fs.dirs
    ∧ ds ∈ (process_dataset w "video"
            ⟨some ⟨it, some ds, some ⟨some u, some vd, some n⟩, img⟩, ont⟩ s).1.fs.dirs := by
  rw [process_video_eq]
  simp only [extract_dirs, download_dirs]
  constructor
  · exact mem_makedirs_mono _ ds vd (mem_makedirs_self _ vd)
  · exact mem_makedirs_self _ ds

/-- C8: after `download_and_extract_videos` with URL `u` and target directory
`d`, the downloaded archive `d/videos.zip` is on disk alongside every
extracted entry, and it is still on disk after the subsequent
frame-extraction step — nothing in the run deletes it. -/
theorem acquisition_leaves_archive (w : World) (u d : String) (s : St) :
    (d ++ "/videos.zip") ∈ (download_and_extract_videos w u d s).fs.files
    ∧ (∀ e ∈ w.archiveEntries u,
        (d ++ "/" ++ e) ∈ (download_and_extract_videos w u d s).fs.files)
    ∧ ∀ (video_dir image_dir : String) (stride : Nat),
        (d ++ "/videos.zip") ∈ (extract_frames_from_videos w video_dir image_dir stride
          (download_and_extract_videos w u d s)).fs.files := by
  refine ⟨download_zip_mem w u d s, fun e he => download_entry_mem w u d s e he, ?_⟩
  intro video_dir image_dir stride
  exact extract_files_mono w video_dir image_dir stride _ _ (download_zip_mem w u d s)

/-- Witness for C8 with a one-entry archive. -/
theorem acquisition_leaves_archive_witness :
    ("vids/videos.zip")
      ∈ (download_and_extract_videos ⟨fun _ => ["a.mp4"], fun _ => 2, fun _ => ⟨none, none⟩⟩
          "http://x/videos.zip" "vids" (initSt ⟨[], []⟩)).fs.files
    ∧ ("vids/" ++ "a.mp4")
      ∈ (download_and_extract_videos ⟨fun _ => ["a.mp4"], fun _ => 2, fun _ => ⟨none, none⟩⟩
          "http://x/videos.zip" "vids" (initSt ⟨[], []⟩)).fs.files
    ∧ ("vids/videos.zip")
      ∈ (extract_frames_from_videos ⟨fun _ => ["a.mp4"], fun _ => 2, fun _ => ⟨none, none⟩⟩
          "vids" "out" 1
          (download_and_extract_videos ⟨fun _ => ["a.mp4"], fun _ => 2, fun _ => ⟨none, none⟩⟩
            "http://x/videos.zip" "vids" (initSt ⟨[], []⟩))).fs.files :=
  ⟨(acquisition_leaves_archive ⟨fun _ => ["a.mp4"], fun _ => 2, fun _ => ⟨none, none⟩⟩
      "http://x/videos.zip" "vids" (initSt ⟨[], []⟩)).1,
   (acquisition_leaves_archive ⟨fun _ => ["a.mp4"], fun _ => 2, fun _ => ⟨none, none⟩⟩
      "http://x/videos.zip" "vids" (initSt ⟨[], []⟩)).2.1 "a.mp4" (by decide),
   (acquisition_leaves_archive ⟨fun _ => ["a.mp4"], fun _ => 2, fun _ => ⟨none, none⟩⟩
      "http://x/videos.zip" "vids" (initSt ⟨[], []⟩)).2.2 "vids" "out" 1⟩

/-! Counting the sampled frames. -/

theorem length_videoFrameIndices (stride : Nat) (hs : 0 < stride) :
    ∀ n : Nat, (videoFrameIndices n stride).length = (n + stride - 1) / stride
  | 0 => by
    simp only [videoFrameIndices, List.range_zero, List.filter_nil, List.length_nil]
    exact (Nat.div_eq_of_lt (by omega)).symm
  | n + 1 => by
    have ih := length_videoFrameIndices stride hs n
    simp only [videoFrameIndices] at ih ⊢
    rw [List.range_succ, List.filter_append, List.length_append, ih]
    have h1 : n + 1 + stride - 1 = (n + stride - 1) + 1 := by omega
    rw [h1, Nat.succ_div]
    have h2 : stride ∣ n + stride - 1 + 1 ↔ n % stride = 0 := by
      have h3 : n + stride - 1 + 1 = n + stride := by omega
      rw [h3, Nat.dvd_add_self_right, Nat.dvd_iff_mod_eq_zero]
    by_cases h : n % stride = 0
    · have hf : List.filter (fun i => i % stride == 0) [n] = [n] := by simp [h]
      rw [hf, if_pos (h2.mpr h)]
      simp
    · have hf : List.filter (fun i => i % stride == 0) [n] = [] := by simp [h]
      rw [hf, if_neg (fun hd => h (h2.mp hd))]
      simp

/-- C5: for every positive stride, the extractor's trace consists of exactly
the per-video `saveImage` blocks of `extractedSaveEvents`, and the block for
a video of `n` decodable frames has exactly `⌈n / stride⌉ = (n + stride - 1)
/ stride` saved images. -/
theorem extractor_frame_count (w : World) (video_dir image_dir : String) (stride : Nat)
    (hs : 0 < stride) (s : St) :
    (extract_frames_from_videos w video_dir image_dir stride s).trace
      = s.trace ++ extractedSaveEvents w s.fs video_dir image_dir stride
    ∧ ∀ vp : String,
        ((List.range (videoFrameIndices (w.frameCount vp) stride).length).map (fun i =>
          Event.saveImage (image_dir ++ "/" ++ frameImageName (splitextBase (basename vp)) i))).length
        = (w.frameCount vp + stride - 1) / stride := by
  refine ⟨extract_trace w video_dir image_dir stride s, fun vp => ?_⟩
  rw [List.length_map, List.length_range, length_videoFrameIndices stride hs]

/-- Witness for C5: one video of 7 decodable frames at stride 2 gives
`⌈7/2⌉ = 4` saved frames. -/
theorem extractor_frame_count_witness :
    (extract_frames_from_videos ⟨fun _ => [], fun _ => 7, fun _ => ⟨none, none⟩⟩
        "vids" "out" 2 (initSt ⟨[], ["vids/v.mp4"]⟩)).trace
      = (initSt ⟨[], ["vids/v.mp4"]⟩).trace
        ++ extractedSaveEvents ⟨fun _ => [], fun _ => 7, fun _ => ⟨none, none⟩⟩
            ⟨[], ["vids/v.mp4"]⟩ "vids" "out" 2
    ∧ ((List.range (videoFrameIndices 7 2).length).map (fun i =>
        Event.saveImage ("out" ++ "/" ++ frameImageName (splitextBase (basename "vids/v.mp4")) i))).length
      = (7 + 2 - 1) / 2 :=
  ⟨(extractor_frame_count ⟨fun _ => [], fun _ => 7, fun _ => ⟨none, none⟩⟩ "vids" "out" 2
      (by decide) (initSt ⟨[], ["vids/v.mp4"]⟩)).1,
   (extractor_frame_count ⟨fun _ => [], fun _ => 7, fun _ => ⟨none, none⟩⟩ "vids" "out" 2
      (by decide) (initSt ⟨[], ["vids/v.mp4"]⟩)).2 "vids/v.mp4"⟩

/-! The frame-naming convention. -/

/-- The naming property the specification asserts of every frame file: base
name, separator, an exactly-5-character zero-padded index, extension. -/
def fiveDigitFrameName (video_name name : String) : Prop :=
  ∃ d : String, d.length = 5 ∧ name = video_name ++ "-" ++ d ++ ".png"

/-- A world holding a single video with 100001 decodable frames. -/
def bigWorld : World := ⟨fun _ => [], fun _ => 100001, fun _ => ⟨none, none⟩⟩

/-- A start state whose filesystem holds exactly the file `vids/v.mp4`. -/
def bigSt : St := ⟨⟨[], ["vids/v.mp4"]⟩, []⟩

theorem format05_length (i : Nat) : (format05 i).length = max 5 (toString i).length := by
  unfold format05
  by_cases h : (toString i).length < 5
  · rw [if_pos h, String.length_append]
    have hr : (String.mk (List.replicate (5 - (toString i).length) '0')).length
        = 5 - (toString i).length := by
      show (List.replicate (5 - (toString i).length) '0').length = _
      exact List.length_replicate _ _
    omega
  · rw [if_neg h]
    omega

/-- C4, counterexample to the claim as stated: for a video with 100001
decodable frames at stride 1, the extractor saves a frame file whose index
part `"100000"` has six characters, not five — `"{:05d}"` pads to a minimum
of five digits but does not truncate. -/
theorem extractor_five_digit_counterexample :
    Event.saveImage ("out" ++ "/" ++ frameImageName "v" 100000)
      ∈ (extract_frames_from_videos bigWorld "vids" "out" 1 bigSt).trace
    ∧ ¬ fiveDigitFrameName "v" (frameImageName "v" 100000) := by
  constructor
  · rw [extract_trace]
    apply List.mem_append_right
    unfold extractedSaveEvents
    apply List.mem_flatMap.mpr
    refine ⟨"vids/v.mp4", by decide, ?_⟩
    apply List.mem_map.mpr
    refine ⟨100000, List.mem_range.mpr ?_, ?_⟩
    · have h1 : (videoFrameIndices (bigWorld.frameCount "vids/v.mp4") 1).length
          = 100001 := by
        rw [length_videoFrameIndices 1 (by decide)]
        decide
      rw [h1]
      decide
    · have hb : splitextBase (basename "vids/v.mp4") = "v" := by decide
      rw [hb]
  · rintro ⟨d, hd, he⟩
    have h1 : (frameImageName "v" 100000).length = 12 := by decide
    rw [he, String.length_append, String.length_append, String.length_append] at h1
    have l1 : ("v" : String).length = 1 := rfl
    have l2 : ("-" : String).length = 1 := rfl
    have l3 : (".png" : String).length = 4 := rfl
    omega

/-- C4 as amended: every frame file of a video is named
`<video-basename>-<index>.png` where the index is the decimal frame sequence
number zero-padded to a minimum of 5 characters (exactly 5 for the first
100000 frames), and within one video the saves occur at indices
`0, 1, 2, …` in strictly increasing order, as the `List.range` block of
`extractedSaveEvents` exhibits. -/
theorem extractor_frame_naming (w : World) (video_dir image_dir : String) (stride : Nat)
    (s : St) :
    (extract_frames_from_videos w video_dir image_dir stride s).trace
      = s.trace ++ (list_files_with_extensions s.fs video_dir).flatMap (fun vp =>
          (List.range (videoFrameIndices (w.frameCount vp) stride).length).map (fun i =>
            Event.saveImage (image_dir ++ "/" ++ frameImageName (splitextBase (basename vp)) i)))
    ∧ (∀ base i, frameImageName base i = base ++ "-" ++ format05 i ++ ".png")
    ∧ (∀ i, (format05 i).length = max 5 (toString i).length) :=
  ⟨extract_trace w video_dir image_dir stride s, fun _ _ => rfl, format05_length⟩

/-! Run lemmas for `main` on fully-specified configurations. -/

theorem emit_trace (s : St) (e : Event) : (s.emit e).trace = s.trace ++ [e] := rfl

theorem makedirs_trace (s : St) (d : String) :
    (s.makedirs d).trace = s.trace ++ [Event.makedirs d] := rfl

theorem main_image_eq (w : World) (p ds imgd : String) (vidsec : Option VideoSection)
    (m : List (String × String)) (s : St)
    (hw : w.config p = ⟨some ⟨some "image", some ds, vidsec, some ⟨some imgd⟩⟩, some m⟩)
    (h : s.fs.pathExists imgd = true) :
    main w p s
      = (((((((((s.emit (.loadConfig p)).emit (.routeDataset "image")).print
          "Dataset type is 'image'. Processing existing image dataset...").makedirs ds).emit
          (.captionOntology m)).emit (.groundedSAM m)).print
          "Starting auto-labeling of images...").emit (.labelCall imgd ds)).print
          "Dataset construction complete.", .ok) := by
  have hp := process_image_found_eq w (some "image") ds imgd vidsec (some m)
    (s.emit (.loadConfig p)) h
  simp [main, hw, hp, auto_label_images]

theorem main_video_eq (w : World) (p ds u vd imgd : String) (n : Nat)
    (m : List (String × String)) (s : St)
    (hw : w.config p
      = ⟨some ⟨some "video", some ds, some ⟨some u, some vd, some n⟩, some ⟨some imgd⟩⟩, some m⟩) :
    main w p s
      = ((((((extract_frames_from_videos w vd ds n
            (download_and_extract_videos w u vd
              (((((s.emit (.loadConfig p)).emit (.routeDataset "video")).print
                "Dataset type is 'video'. Processing video dataset...").makedirs vd).makedirs ds))).emit
            (.captionOntology m)).emit (.groundedSAM m)).print
            "Starting auto-labeling of images...").emit (.labelCall imgd ds)).print
            "Dataset construction complete.", .ok) := by
  have hp := process_video_eq w (some "video") ds u vd n (some ⟨some imgd⟩) (some m)
    (s.emit (.loadConfig p))
  simp [main, hw, hp, auto_label_images]

theorem main_video_noimage_eq (w : World) (p ds u vd : String) (n : Nat)
    (m : List (String × String)) (s : St)
    (hw : w.config p
      = ⟨some ⟨some "video", some ds, some ⟨some u, some vd, some n⟩, none⟩, some m⟩) :
    main w p s
      = (extract_frames_from_videos w vd ds n
          (download_and_extract_videos w u vd
            (((((s.emit (.loadConfig p)).emit (.routeDataset "video")).print
              "Dataset type is 'video'. Processing video dataset...").makedirs vd).makedirs ds)),
        .err (.keyError "image")) := by
  have hp := process_video_eq w (some "video") ds u vd n none (some m)
    (s.emit (.loadConfig p))
  simp [main, hw, hp]

/-! The ontology mappings handed to `CaptionOntology`, in trace order. -/

/-- Collect the argument of every `CaptionOntology` construction recorded in
a trace. -/
def ontologyConstructions : List Event → List (List (String × String))
  | [] => []
  | Event.captionOntology m :: t => m :: ontologyConstructions t
  | _ :: t => ontologyConstructions t

theorem ontologyConstructions_append :
    ∀ t1 t2 : List Event,
      ontologyConstructions (t1 ++ t2)
        = ontologyConstructions t1 ++ ontologyConstructions t2
  | [], _ => rfl
  | e :: t1, t2 => by
    cases e <;> simp [ontologyConstructions, ontologyConstructions_append t1 t2]

/-- C6: in a run whose configuration carries the ontology mapping `m`, the
trace records exactly one `CaptionOntology` construction, and its argument is
exactly `m` — the mapping is passed unmodified (same keys, same values, same
order) from configuration load to the oracle-ontology constructor. -/
theorem ontology_passed_unmodified (w : World) (p ds imgd : String)
    (vidsec : Option VideoSection) (m : List (String × String)) (fs : FS)
    (hw : w.config p = ⟨some ⟨some "image", some ds, vidsec, some ⟨some imgd⟩⟩, some m⟩)
    (h : fs.pathExists imgd = true) :
    ontologyConstructions (main w p (initSt fs)).1.trace = [m] := by
  rw [main_image_eq w p ds imgd vidsec m (initSt fs) hw h]
  simp [St.print, St.emit, St.makedirs, initSt, ontologyConstructions,
    ontologyConstructions_append]

/-- Witness for C6: a two-entry ontology on an image-mode run. -/
theorem ontology_passed_unmodified_witness :
    (FS.pathExists ⟨["imgs"], []⟩ "imgs" = true)
    ∧ ontologyConstructions
        (main ⟨fun _ => [], fun _ => 0,
          fun _ => ⟨some ⟨some "image", some "out", none, some ⟨some "imgs"⟩⟩,
            some [("a person", "person"), ("a car", "car")]⟩⟩
          "config.yaml" (initSt ⟨["imgs"], []⟩)).1.trace
      = [[("a person", "person"), ("a car", "car")]] :=
  ⟨rfl,
   ontology_passed_unmodified ⟨fun _ => [], fun _ => 0,
      fun _ => ⟨some ⟨some "image", some "out", none, some ⟨some "imgs"⟩⟩,
        some [("a person", "person"), ("a car", "car")]⟩⟩
      "config.yaml" "out" "imgs" none [("a person", "person"), ("a car", "car")]
      ⟨["imgs"], []⟩ rfl rfl⟩

/-! The orchestrator's exit behaviour. -/

theorem main_ok_last (w : World) (p : String) (s : St)
    (h : (main w p s).2 = Outcome.ok) :
    (main w p s).1.trace.getLast? = some (Event.printMsg "Dataset construction complete.") := by
  simp only [main] at h ⊢
  cases hd : (w.config p).data with
  | none => rw [hd] at h; exact Outcome.noConfusion h
  | some data =>
    rw [hd] at h
    dsimp only at h ⊢
    cases hit : data.input_type with
    | none => rw [hit] at h; exact Outcome.noConfusion h
    | some it =>
      rw [hit] at h
      dsimp only at h ⊢
      rcases hpd : process_dataset w it (w.config p) (s.emit (.loadConfig p)) with ⟨s1, o⟩
      rw [hpd] at h
      cases o with
      | err e => exact Outcome.noConfusion h
      | ok =>
        dsimp only at h ⊢
        cases ho : (w.config p).ontology with
        | none => rw [ho] at h; exact Outcome.noConfusion h
        | some m =>
          rw [ho] at h
          dsimp only at h ⊢
          cases him : data.image with
          | none => rw [him] at h; exact Outcome.noConfusion h
          | some isec =>
            rw [him] at h
            dsimp only at h ⊢
            cases hid : isec.image_dir with
            | none => rw [hid] at h; exact Outcome.noConfusion h
            | some imgd =>
              rw [hid] at h
              dsimp only at h ⊢
              cases hdd : data.dataset_dir with
              | none => rw [hdd] at h; exact Outcome.noConfusion h
              | some ds =>
                simp [auto_label_images, St.print, St.emit]

/-- C9: with no `--config` argument the configuration path defaults to
`"config.yaml"`, and whenever the script completes normally, the last thing
it does is print `"Dataset construction complete."` and the process exit
status is zero. -/
theorem orchestrator_default_and_final_print :
    parseConfigArg [] = "config.yaml"
    ∧ ∀ (w : World) (args : List String) (s : St),
        (runScript w args s).2 = Outcome.ok →
          (runScript w args s).1.trace.getLast?
              = some (Event.printMsg "Dataset construction complete.")
          ∧ exitCode (runScript w args s).2 = 0 := by
  refine ⟨rfl, fun w args s h => ⟨main_ok_last w (parseConfigArg args) s h, ?_⟩⟩
  rw [h]
  rfl

/-- Witness for C9: a concrete normally-completing image-mode run with no
command-line arguments. -/
theorem orchestrator_default_and_final_print_witness :
    (runScript ⟨fun _ => [], fun _ => 0,
        fun _ => ⟨some ⟨some "image", some "out", none, some ⟨some "imgs"⟩⟩,
          some [("a person", "person")]⟩⟩ [] (initSt ⟨["imgs"], []⟩)).2 = Outcome.ok
    ∧ (runScript ⟨fun _ => [], fun _ => 0,
        fun _ => ⟨some ⟨some "image", some "out", none, some ⟨some "imgs"⟩⟩,
          some [("a person", "person")]⟩⟩ [] (initSt ⟨["imgs"], []⟩)).1.trace.getLast?
        = some (Event.printMsg "Dataset construction complete.")
    ∧ exitCode (runScript ⟨fun _ => [], fun _ => 0,
        fun _ => ⟨some ⟨some "image", some "out", none, some ⟨some "imgs"⟩⟩,
          some [("a person", "person")]⟩⟩ [] (initSt ⟨["imgs"], []⟩)).2 = 0 := by
  refine ⟨by decide, ?_⟩
  exact orchestrator_default_and_final_print.2 ⟨fun _ => [], fun _ => 0,
    fun _ => ⟨some ⟨some "image", some "out", none, some ⟨some "imgs"⟩⟩,
      some [("a person", "person")]⟩⟩ [] (initSt ⟨["imgs"], []⟩) (by decide)

/-! Event classification for the temporal-ordering claim. -/

/-- The call marker of `process_dataset`. -/
def isRouteEvent : Event → Bool
  | .routeDataset _ => true
  | _ => false

/-- Events of the Auto-Labeler: ontology construction, model construction,
and the batch-labeling call. -/
def isLabelingEvent : Event → Bool
  | .captionOntology _ => true
  | .groundedSAM _ => true
  | .labelCall _ _ => true
  | _ => false

/-- The batch-labeling call itself. -/
def isLabelCallEvent : Event → Bool
  | .labelCall _ _ => true
  | _ => false

/-- Events of Video Acquisition: the HTTP request, file writes of the
archive and its entries, and the archive extraction. -/
def isAcquisitionEvent : Event → Bool
  | .httpGet _ => true
  | .writeFile _ => true
  | .extractArchive _ _ => true
  | _ => false

/-- Frame-extraction save events. -/
def isSaveImageEvent : Event → Bool
  | .saveImage _ => true
  | _ => false

/-- Dataset-Router work events: the route marker, directory creation,
acquisition I/O and frame saves — everything the Router and its callees do,
console output aside. -/
def isRouterEvent (e : Event) : Bool :=
  isRouteEvent e || isAcquisitionEvent e || isSaveImageEvent e ||
    (match e with | .makedirs _ => true | _ => false)

/-- Every `p`-event of the trace occurs strictly before every `q`-event: the
trace splits into a `q`-free prefix and a `p`-free suffix. -/
def eventsSplit (p q : Event → Bool) (t : List Event) : Prop :=
  ∃ t1 t2, t = t1 ++ t2 ∧ t1.countP q = 0 ∧ t2.countP p = 0

theorem acquisitionTrace_counts (w : World) (u d : String) :
    (acquisitionTrace w u d).countP isRouteEvent = 0
    ∧ (acquisitionTrace w u d).countP isLabelingEvent = 0
    ∧ (acquisitionTrace w u d).countP isLabelCallEvent = 0
    ∧ (acquisitionTrace w u d).countP isSaveImageEvent = 0 := by
  refine ⟨?_, ?_, ?_, ?_⟩ <;>
    simp [acquisitionTrace, List.countP_append, List.countP_cons, List.countP_map,
      isRouteEvent, isLabelingEvent, isLabelCallEvent, isSaveImageEvent, Function.comp]

theorem extractedSaveEvents_save (w : World) (fs : FS) (vd id : String) (n : Nat) :
    ∀ e ∈ extractedSaveEvents w fs vd id n, ∃ pth, e = Event.saveImage pth := by
  intro e he
  simp [extractedSaveEvents] at he
  obtain ⟨vp, hvp, i, hi, rfl⟩ := he
  exact ⟨_, rfl⟩

theorem extractedSaveEvents_counts (w : World) (fs : FS) (vd id : String) (n : Nat) :
    (extractedSaveEvents w fs vd id n).countP isRouteEvent = 0
    ∧ (extractedSaveEvents w fs vd id n).countP isLabelingEvent = 0
    ∧ (extractedSaveEvents w fs vd id n).countP isLabelCallEvent = 0
    ∧ (extractedSaveEvents w fs vd id n).countP isAcquisitionEvent = 0 := by
  refine ⟨?_, ?_, ?_, ?_⟩ <;>
  · apply List.countP_eq_zero.mpr
    intro e he
    obtain ⟨pth, rfl⟩ := extractedSaveEvents_save w fs vd id n e he
    simp [isRouteEvent, isLabelingEvent, isLabelCallEvent, isAcquisitionEvent]

/-- C7: in a run on a complete video-mode configuration, control flow is
strictly linear: the run succeeds, its first event is the configuration
load, the Dataset Router is entered exactly once and the batch-labeling call
happens exactly once, all Router work (directory creation, acquisition I/O,
frame saves) precedes every Auto-Labeler event, and every acquisition event
precedes every frame-save event (Acquisition completes before Extraction
begins). -/
theorem orchestrator_linear (w : World) (p ds u vd imgd : String) (n : Nat)
    (m : List (String × String)) (fs : FS)
    (hw : w.config p
      = ⟨some ⟨some "video", some ds, some ⟨some u, some vd, some n⟩, some ⟨some imgd⟩⟩, some m⟩) :
    (main w p (initSt fs)).2 = Outcome.ok
    ∧ (main w p (initSt fs)).1.trace.head? = some (Event.loadConfig p)
    ∧ (main w p (initSt fs)).1.trace.countP isRouteEvent = 1
    ∧ (main w p (initSt fs)).1.trace.countP isLabelCallEvent = 1
    ∧ eventsSplit isRouterEvent isLabelingEvent (main w p (initSt fs)).1.trace
    ∧ eventsSplit isAcquisitionEvent isSaveImageEvent (main w p (initSt fs)).1.trace := by
  have H := main_video_eq w p ds u vd imgd n m (initSt fs) hw
  have hex : ∃ A : FS, (main w p (initSt fs)).1.trace
      = ([Event.loadConfig p, Event.routeDataset "video",
          Event.printMsg "Dataset type is 'video'. Processing video dataset...",
          Event.makedirs vd, Event.makedirs ds]
         ++ acquisitionTrace w u vd
         ++ extractedSaveEvents w A vd ds n)
        ++ [Event.captionOntology m, Event.groundedSAM m,
            Event.printMsg "Starting auto-labeling of images...",
            Event.labelCall imgd ds,
            Event.printMsg "Dataset construction complete."] := by
    refine ⟨(download_and_extract_videos w u vd
      ((((((initSt fs).emit (.loadConfig p)).emit (.routeDataset "video")).print
        "Dataset type is 'video'. Processing video dataset...").makedirs vd).makedirs ds)).fs, ?_⟩
    rw [H]
    simp [emit_trace, print_trace, makedirs_trace, extract_trace, download_trace, initSt]
  obtain ⟨A, htr⟩ := hex
  refine ⟨by rw [H], ?_, ?_, ?_, ?_, ?_⟩
  · rw [htr]
    rfl
  · rw [htr]
    simp [List.countP_append, List.countP_cons, isRouteEvent,
      (acquisitionTrace_counts w u vd).1, (extractedSaveEvents_counts w A vd ds n).1]
  · rw [htr]
    simp [List.countP_append, List.countP_cons, isLabelCallEvent,
      (acquisitionTrace_counts w u vd).2.2.1, (extractedSaveEvents_counts w A vd ds n).2.2.1]
  · refine ⟨[Event.loadConfig p, Event.routeDataset "video",
        Event.printMsg "Dataset type is 'video'. Processing video dataset...",
        Event.makedirs vd, Event.makedirs ds]
        ++ acquisitionTrace w u vd ++ extractedSaveEvents w A vd ds n,
      [Event.captionOntology m, Event.groundedSAM m,
        Event.printMsg "Starting auto-labeling of images...",
        Event.labelCall imgd ds,
        Event.printMsg "Dataset construction complete."], ?_, ?_, ?_⟩
    · rw [htr]
    · simp [List.countP_append, List.countP_cons, isLabelingEvent,
        (acquisitionTrace_counts w u vd).2.1, (extractedSaveEvents_counts w A vd ds n).2.1]
    · simp [List.countP_cons, isRouterEvent, isRouteEvent, isAcquisitionEvent,
        isSaveImageEvent]
  · refine ⟨[Event.loadConfig p, Event.routeDataset "video",
        Event.printMsg "Dataset type is 'video'. Processing video dataset...",
        Event.makedirs vd, Event.makedirs ds]
        ++ acquisitionTrace w u vd,
      extractedSaveEvents w A vd ds n
        ++ [Event.captionOntology m, Event.groundedSAM m,
            Event.printMsg "Starting auto-labeling of images...",
            Event.labelCall imgd ds,
            Event.printMsg "Dataset construction complete."], ?_, ?_, ?_⟩
    · rw [htr]
      simp [List.append_assoc]
    · simp [List.countP_append, List.countP_cons, isSaveImageEvent,
        (acquisitionTrace_counts w u vd).2.2.2]
    · simp [List.countP_append, List.countP_cons, isAcquisitionEvent,
        (extractedSaveEvents_counts w A vd ds n).2.2.2]

/-- A concrete world for the C7 witness: one archive entry, five decodable
frames per video, a complete video-mode configuration. -/
def w7 : World :=
  ⟨fun _ => ["a.mp4"], fun _ => 5,
   fun _ => ⟨some ⟨some "video", some "data/out",
     some ⟨some "http://h/v.zip", some "data/vids", some 2⟩,
     some ⟨some "data/imgs"⟩⟩, some [("a person", "person")]⟩⟩

/-- Witness for C7 at the concrete world `w7`. -/
theorem orchestrator_linear_witness :
    (main w7 "cfg.yaml" (initSt ⟨[], []⟩)).2 = Outcome.ok
    ∧ (main w7 "cfg.yaml" (initSt ⟨[], []⟩)).1.trace.head?
        = some (Event.loadConfig "cfg.yaml")
    ∧ (main w7 "cfg.yaml" (initSt ⟨[], []⟩)).1.trace.countP isRouteEvent = 1
    ∧ (main w7 "cfg.yaml" (initSt ⟨[], []⟩)).1.trace.countP isLabelCallEvent = 1
    ∧ eventsSplit isRouterEvent isLabelingEvent (main w7 "cfg.yaml" (initSt ⟨[], []⟩)).1.trace
    ∧ eventsSplit isAcquisitionEvent isSaveImageEvent
        (main w7 "cfg.yaml" (initSt ⟨[], []⟩)).1.trace :=
  orchestrator_linear w7 "cfg.yaml" "data/out" "http://h/v.zip" "data/vids" "data/imgs" 2
    [("a person", "person")] ⟨[], []⟩ rfl

/-- C10: `main` reads `config['data']['image']['image_dir']` as the labeling
input directory even in video mode.  First part: a video-mode configuration
that omits the `data.image` key fails with `KeyError "image"` only after
acquisition and extraction have fully run — the final state is exactly the
state after `extract_frames_from_videos`.  Second part: with the key present,
the batch-labeling call receives `image_dir` (not the dataset directory the
frames were written into) as its input folder. -/
theorem labeler_reads_config_image_dir :
    (∀ (w : World) (p ds u vd : String) (n : Nat) (m : List (String × String)) (fs : FS),
      w.config p = ⟨some ⟨some "video", some ds, some ⟨some u, some vd, some n⟩, none⟩, some m⟩ →
        (main w p (initSt fs)).2 = Outcome.err (Err.keyError "image")
        ∧ (main w p (initSt fs)).1
            = extract_frames_from_videos w vd ds n
                (download_and_extract_videos w u vd
                  ((((((initSt fs).emit (.loadConfig p)).emit (.routeDataset "video")).print
                    "Dataset type is 'video'. Processing video dataset...").makedirs vd).makedirs ds)))
    ∧ (∀ (w : World) (p ds u vd imgd : String) (n : Nat) (m : List (String × String)) (fs : FS),
      w.config p
          = ⟨some ⟨some "video", some ds, some ⟨some u, some vd, some n⟩, some ⟨some imgd⟩⟩, some m⟩ →
        Event.labelCall imgd ds ∈ (main w p (initSt fs)).1.trace) := by
  constructor
  · intro w p ds u vd n m fs hw
    rw [main_video_noimage_eq w p ds u vd n m (initSt fs) hw]
    exact ⟨rfl, rfl⟩
  · intro w p ds u vd imgd n m fs hw
    rw [main_video_eq w p ds u vd imgd n m (initSt fs) hw]
    simp [emit_trace, print_trace, St.print, St.emit]

/-- A concrete world for the C10 witness: video mode with the `data.image`
key absent. -/
def w10 : World :=
  ⟨fun _ => ["a.mp4"], fun _ => 3,
   fun _ => ⟨some ⟨some "video", some "out",
     some ⟨some "http://x", some "vids", some 1⟩, none⟩, some [("a", "b")]⟩⟩

/-- Witness for C10: the missing-key run fails with `KeyError "image"`, and
the complete-configuration run labels `data/imgs`. -/
theorem labeler_reads_config_image_dir_witness :
    (main w10 "config.yaml" (initSt ⟨[], []⟩)).2 = Outcome.err (Err.keyError "image")
    ∧ Event.labelCall "data/imgs" "data/out"
        ∈ (main w7 "cfg.yaml" (initSt ⟨[], []⟩)).1.trace :=
  ⟨(labeler_reads_config_image_dir.1 w10 "config.yaml" "out" "http://x" "vids" 1
      [("a", "b")] ⟨[], []⟩ rfl).1,
   labeler_reads_config_image_dir.2 w7 "cfg.yaml" "data/out" "http://h/v.zip" "data/vids"
      "data/imgs" 2 [("a person", "person")] ⟨[], []⟩ rfl⟩

end AutoDistill
